import Mathlib

/-!
Shallow embedding of the website-intelligence scraping engine of the
code-email-engine repository (src/src/scrapers), together with proofs about
its scoring, statistics, CMS-version, fetch and page-probe logic.

Modelling conventions:
- Python ints are `ℤ` (or `ℕ` where the source value is a length/count),
  Python floats are `ℚ` under exact real arithmetic, except where a claim is
  sensitive to IEEE-754 binary64 rounding; for that case a separate
  binary64-faithful model over natural-number fractions is provided
  (`fpNormFrac`, `buyer_priority_fp`).
- Python `int(x)` truncation toward zero is `pyInt`; Python `round(x, k)`
  (round-half-to-even) is `roundTo k`.
- Mutating methods become functions returning the updated record.
- The network is a parameter: a function from URL to fetch outcome.
-/

namespace WebIntel

/-- Python int() applied to a float value: truncation toward zero. -/
def pyInt (q : ℚ) : ℤ := if q < 0 then ⌈q⌉ else ⌊q⌋

/-- Round-half-to-even to the nearest integer, as Python round() does. -/
def rheQ (x : ℚ) : ℤ :=
  if x - ⌊x⌋ < 1 / 2 then ⌊x⌋
  else if 1 / 2 < x - ⌊x⌋ then ⌊x⌋ + 1
  else if Even ⌊x⌋ then ⌊x⌋ else ⌊x⌋ + 1

/-- Python round(x, k): round-half-to-even at k decimal digits. -/
def roundTo (k : ℕ) (x : ℚ) : ℚ := (rheQ (x * 10 ^ k) : ℚ) / 10 ^ k

/-- Insert a value into an ascending-sorted list (used to model Python sorted). -/
def insertAsc (x : ℚ) : List ℚ → List ℚ
  | [] => [x]
  | y :: ys => if x ≤ y then x :: y :: ys else y :: insertAsc x ys

/-- Ascending sort of a list of rationals, modelling Python sorted(). -/
def sortAsc (l : List ℚ) : List ℚ := l.foldr insertAsc []

/-- Sum of a list of rationals divided by its length: Python statistics.mean. -/
def meanOf (l : List ℚ) : ℚ := l.sum / (l.length : ℚ)

/-!
Binary64 (IEEE-754 double) model over natural-number fractions.
A nonnegative value n/d is rounded to 53 significant bits, giving a mantissa
and a power-of-two exponent. Overflow and subnormals are not modelled; every
value arising in the scoring code is far inside the normal range.
-/

/-- Fuel-driven bit length of a natural number: natBits fuel n = number of
binary digits of n, provided fuel is at least that number. -/
def natBits : ℕ → ℕ → ℕ
  | 0, _ => 0
  | f + 1, n => if n ≤ 1 then n else natBits f (n / 2) + 1

/-- Round-half-to-even of the fraction p / q (q positive) to an integer. -/
def rheFrac (p q : ℕ) : ℕ :=
  if 2 * (p % q) < q then p / q
  else if q < 2 * (p % q) then p / q + 1
  else if (p / q) % 2 = 0 then p / q else p / q + 1

/-- Decides 2 ^ e ≤ n / d by cross multiplication, for a signed exponent. -/
def pow2LEfrac (e : ℤ) (n d : ℕ) : Bool :=
  if 0 ≤ e then d * 2 ^ e.toNat ≤ n else d ≤ n * 2 ^ (-e).toNat

/-- Binary exponent of n / d: the unique e with 2 ^ e ≤ n / d < 2 ^ (e + 1),
for positive n and d. -/
def fracExp (n d : ℕ) : ℤ :=
  let e : ℤ := (natBits (n + d) n : ℤ) - (natBits (n + d) d : ℤ)
  if pow2LEfrac e n d then e else e - 1

/-- Binary64 rounding of the positive fraction n / d: returns (m, g) such that
the nearest double is m * 2 ^ g, with m the 53-bit mantissa. -/
def fpNormFrac (n d : ℕ) : ℕ × ℤ :=
  let e := fracExp n d
  let g := e - 52
  let m := if 0 ≤ g then rheFrac n (d * 2 ^ g.toNat) else rheFrac (n * 2 ^ (-g).toNat) d
  (m, g)

/-- Binary64-faithful model of the source line
buyer_priority_score = int(issues_score * (business_legitimacy_score / 100)):
legit / 100 is rounded to the nearest double, the product with issues_score is
rounded to the nearest double, and the result is truncated. Both arguments are
nonnegative in the program, so they are taken as naturals. -/
def buyer_priority_fp (issues legit : ℕ) : ℕ :=
  if legit = 0 then 0
  else
    let p := fpNormFrac legit 100
    if issues = 0 then 0
    else
      let p2 :=
        if 0 ≤ p.2 then fpNormFrac (issues * p.1 * 2 ^ p.2.toNat) 1
        else fpNormFrac (issues * p.1) (2 ^ (-p.2).toNat)
      if 0 ≤ p2.2 then p2.1 * 2 ^ p2.2.toNat else p2.1 / 2 ^ (-p2.2).toNat

/-!
Metric group records, translated from src/src/scrapers/metrics/.
Field defaults mirror the dataclass defaults.
-/

/-- LoadTimeMetrics dataclass (metrics/load_time.py). -/
structure LoadTimeMetrics where
  samples : List ℚ := []
  median : ℚ := 0
  trimmed_mean : ℚ := 0
  percentile_90 : ℚ := 0
  percentile_95 : ℚ := 0
  std_dev : ℚ := 0
  iqr : ℚ := 0
  coefficient_of_variation : ℚ := 0
  confidence_score : ℚ := 0

/-- Linear-interpolated percentile of an ascending-sorted list, as
numpy.percentile computes it. -/
def percentileOf (sorted : List ℚ) (p : ℚ) : ℚ :=
  let h : ℚ := ((sorted.length : ℚ) - 1) * p / 100
  let i : ℕ := (⌊h⌋).toNat
  let lo := sorted.getD i 0
  let hi := sorted.getD (i + 1) lo
  lo + (h - (i : ℚ)) * (hi - lo)

/-- Median of an ascending-sorted list, as Python statistics.median. -/
def medianOf (sorted : List ℚ) : ℚ :=
  let n := sorted.length
  if n % 2 = 1 then sorted.getD (n / 2) 0
  else (sorted.getD (n / 2 - 1) 0 + sorted.getD (n / 2) 0) / 2

/-- LoadTimeMetrics.calculate (metrics/load_time.py lines 24-62). The square
root inside statistics.stdev is irrational, so the routine is parameterized by
the square-root function sqrtQ used for it; no claim depends on its values. -/
def LoadTimeMetrics.calculate (sqrtQ : ℚ → ℚ) (m : LoadTimeMetrics) : LoadTimeMetrics :=
  if m.samples.length < 2 then
    match m.samples with
    | [] => m
    | x :: _ => { m with median := x, trimmed_mean := x }
  else
    let sorted := sortAsc m.samples
    let n := sorted.length
    let med := medianOf sorted
    let p90 := percentileOf sorted 90
    let p95 := percentileOf sorted 95
    let q1 := percentileOf sorted 25
    let q3 := percentileOf sorted 75
    let trim_count := max 1 (n / 10)
    let trimmed := if 4 < n then (sorted.drop trim_count).take (n - 2 * trim_count) else sorted
    let tmean := meanOf trimmed
    let mean_val := meanOf sorted
    let svar := (sorted.map (fun x => (x - mean_val) ^ 2)).sum / ((n : ℚ) - 1)
    let sdev := if 1 < n then sqrtQ svar else 0
    let cv := if 0 < mean_val then sdev / mean_val else 0
    let sample_factor := min 1 ((n : ℚ) / 5)
    let consistency_factor := max 0 (1 - cv)
    { m with
      median := med
      percentile_90 := p90
      percentile_95 := p95
      iqr := q3 - q1
      trimmed_mean := tmean
      std_dev := sdev
      coefficient_of_variation := cv
      confidence_score := roundTo 2 (sample_factor * consistency_factor) }

/-- PerformanceMetrics dataclass (metrics/performance.py). -/
structure PerformanceMetrics where
  load_time_metrics : LoadTimeMetrics := {}
  html_size_bytes : ℕ := 0
  total_requests : ℕ := 0
  dns_lookup_time : ℚ := 0
  tcp_connect_time : ℚ := 0
  ttfb : ℚ := 0
  dom_content_loaded : ℚ := 0
  fully_loaded : ℚ := 0
  performance_grade : String := "unknown"

/-- PerformanceMetrics.calculate_grade (metrics/performance.py lines 30-67).
The expression trimmed_mean or median uses Python float truthiness: the
median is taken when the trimmed mean is zero. -/
def PerformanceMetrics.calculate_grade (m : PerformanceMetrics) : PerformanceMetrics :=
  let load_time : ℚ :=
    if m.load_time_metrics.trimmed_mean ≠ 0 then m.load_time_metrics.trimmed_mean
    else m.load_time_metrics.median
  let score : ℤ := 100
    - (if load_time > 5 then 40 else if load_time > 3 then 25
       else if load_time > 2 then 10 else if load_time > 1 then 5 else 0)
    - (if m.html_size_bytes > 500000 then 20 else if m.html_size_bytes > 200000 then 10 else 0)
    - (if m.ttfb > 1 then 15 else if m.ttfb > 1 / 2 then 5 else 0)
  { m with performance_grade :=
      if score ≥ 90 then "A" else if score ≥ 80 then "B" else if score ≥ 70 then "C"
      else if score ≥ 60 then "D" else "F" }

/-- PerformanceMetrics.get_numeric_score (metrics/performance.py lines 69-72):
grade_map.get(grade, 50) with the fixed grade map. -/
def PerformanceMetrics.get_numeric_score (m : PerformanceMetrics) : ℤ :=
  if m.performance_grade = "A" then 100
  else if m.performance_grade = "B" then 85
  else if m.performance_grade = "C" then 70
  else if m.performance_grade = "D" then 55
  else if m.performance_grade = "F" then 40
  else if m.performance_grade = "unknown" then 50
  else 50

/-- SEOMetrics dataclass (metrics/seo.py). Counts come from len() calls and
are naturals. -/
structure SEOMetrics where
  has_meta_description : Bool := false
  has_meta_keywords : Bool := false
  has_og_tags : Bool := false
  has_twitter_cards : Bool := false
  has_structured_data : Bool := false
  has_sitemap : Bool := false
  has_robots_txt : Bool := false
  canonical_url : Option String := none
  h1_count : ℕ := 0
  h2_count : ℕ := 0
  image_count : ℕ := 0
  images_without_alt : ℕ := 0
  internal_links : ℕ := 0
  external_links : ℕ := 0
  seo_score : ℤ := 0

/-- SEOMetrics.calculate_score (metrics/seo.py lines 27-61). The canonical
URL test uses Python truthiness: an empty string counts as absent. -/
def SEOMetrics.calculate_score (m : SEOMetrics) : SEOMetrics :=
  let score : ℤ :=
    (if m.has_meta_description then 15 else 0)
    + (if m.has_og_tags then 10 else 0)
    + (if m.has_twitter_cards then 5 else 0)
    + (if m.has_structured_data then 15 else 0)
    + (if m.has_sitemap then 10 else 0)
    + (if m.has_robots_txt then 5 else 0)
    + (if m.h1_count = 1 then 10 else 0)
    + (if 0 < m.h2_count then 5 else 0)
    + (if m.images_without_alt = 0 ∧ 0 < m.image_count then 10
       else if 0 < m.image_count then
         pyInt (10 * (1 - (m.images_without_alt : ℚ) / (m.image_count : ℚ)))
       else 0)
    + (if m.canonical_url.getD "" ≠ "" then 5 else 0)
    - (if 1 < m.h1_count then 5 else 0)
    - (if m.h1_count = 0 then 10 else 0)
  { m with seo_score := max 0 (min 100 score) }

/-- SecurityMetrics dataclass (metrics/security.py). -/
structure SecurityMetrics where
  has_ssl : Bool := false
  ssl_grade : Option String := none
  has_hsts : Bool := false
  has_csp : Bool := false
  has_x_frame_options : Bool := false
  has_x_content_type_options : Bool := false
  has_x_xss_protection : Bool := false
  security_headers_score : ℤ := 0

/-- SecurityMetrics.calculate_score (metrics/security.py lines 20-36). -/
def SecurityMetrics.calculate_score (m : SecurityMetrics) : SecurityMetrics :=
  { m with security_headers_score :=
      (if m.has_ssl then 30 else 0)
      + (if m.has_hsts then 20 else 0)
      + (if m.has_csp then 20 else 0)
      + (if m.has_x_frame_options then 10 else 0)
      + (if m.has_x_content_type_options then 10 else 0)
      + (if m.has_x_xss_protection then 10 else 0) }

/-- AccessibilityMetrics dataclass (metrics/accessibility.py). Note the
defaults: forms_have_labels and images_have_alt start as True. -/
structure AccessibilityMetrics where
  has_lang_attribute : Bool := false
  has_skip_link : Bool := false
  forms_have_labels : Bool := true
  images_have_alt : Bool := true
  has_aria_landmarks : Bool := false
  color_contrast_issues : ℕ := 0
  accessibility_score : ℤ := 0

/-- AccessibilityMetrics.calculate_score (metrics/accessibility.py lines 19-33). -/
def AccessibilityMetrics.calculate_score (m : AccessibilityMetrics) : AccessibilityMetrics :=
  { m with accessibility_score :=
      (if m.has_lang_attribute then 20 else 0)
      + (if m.has_skip_link then 15 else 0)
      + (if m.forms_have_labels then 20 else 0)
      + (if m.images_have_alt then 25 else 0)
      + (if m.has_aria_landmarks then 20 else 0) }

/-- BusinessSignals dataclass (metrics/business.py). -/
structure BusinessSignals where
  has_contact_page : Bool := false
  has_contact_form : Bool := false
  has_phone_number : Bool := false
  has_email : Bool := false
  has_physical_address : Bool := false
  has_social_links : Bool := false
  social_platforms : List String := []
  has_blog : Bool := false
  has_testimonials : Bool := false
  has_pricing_page : Bool := false
  has_about_page : Bool := false
  has_privacy_policy : Bool := false
  has_terms_of_service : Bool := false
  copyright_year : Option ℤ := none
  estimated_company_size : Option String := none
  business_legitimacy_score : ℤ := 0

/-- BusinessSignals.calculate_score (metrics/business.py lines 28-55). The
copyright test uses Python truthiness of Optional[int]: None and 0 are falsy. -/
def BusinessSignals.calculate_score (m : BusinessSignals) : BusinessSignals :=
  let score : ℤ :=
    (if m.has_contact_page then 10 else 0)
    + (if m.has_contact_form then 5 else 0)
    + (if m.has_phone_number then 15 else 0)
    + (if m.has_email then 10 else 0)
    + (if m.has_physical_address then 15 else 0)
    + (if m.has_social_links then 5 else 0)
    + (if 3 ≤ m.social_platforms.length then 5 else 0)
    + (if m.has_about_page then 10 else 0)
    + (if m.has_privacy_policy then 10 else 0)
    + (if m.has_terms_of_service then 5 else 0)
    + (if m.copyright_year.getD 0 ≠ 0 ∧ 2023 ≤ m.copyright_year.getD 0 then 10 else 0)
  { m with business_legitimacy_score := min 100 score }

/-!
Main result record and score aggregation, translated from
src/src/scrapers/models/website_intelligence.py.
-/

/-- WebsiteIntelligence dataclass (models/website_intelligence.py lines 16-51). -/
structure WebsiteIntelligence where
  domain : String
  status_code : ℕ := 0
  final_url : Option String := none
  title : Option String := none
  meta_description : Option String := none
  cms_detected : Option String := none
  cms_version : Option String := none
  is_outdated_cms : Bool := false
  technologies : List String := []
  performance : PerformanceMetrics := {}
  seo : SEOMetrics := {}
  security : SecurityMetrics := {}
  accessibility : AccessibilityMetrics := {}
  business : BusinessSignals := {}
  is_mobile_friendly : Bool := true
  has_viewport_meta : Bool := false
  overall_score : ℤ := 0
  buyer_priority_score : ℤ := 0
  analysis_timestamp : String := ""
  error : Option String := none

/-- WebsiteIntelligence._calculate_buyer_priority (lines 74-106), under exact
real arithmetic: issues_score points are summed and scaled by the legitimacy
multiplier, then truncated with int(). The binary64 evaluation of the same
line is buyer_priority_fp. -/
def WebsiteIntelligence._calculate_buyer_priority (w : WebsiteIntelligence) : WebsiteIntelligence :=
  let issues_score : ℤ :=
    (if w.performance.load_time_metrics.trimmed_mean > 3 then 20
     else if w.performance.load_time_metrics.trimmed_mean > 2 then 10 else 0)
    + (if w.security.has_ssl = false then 25 else 0)
    + (if w.security.security_headers_score < 50 then 15 else 0)
    + (if w.seo.seo_score < 50 then 20 else 0)
    + (if w.is_outdated_cms then 25 else 0)
  { w with buyer_priority_score :=
      pyInt ((issues_score : ℚ) * ((w.business.business_legitimacy_score : ℚ) / 100)) }

/-- WebsiteIntelligence.calculate_overall_scores (lines 53-72): recompute the
five group scores, combine them into the weighted overall score, then derive
the buyer priority score. -/
def WebsiteIntelligence.calculate_overall_scores (w : WebsiteIntelligence) : WebsiteIntelligence :=
  let w1 := { w with performance := w.performance.calculate_grade }
  let w2 := { w1 with seo := w1.seo.calculate_score }
  let w3 := { w2 with security := w2.security.calculate_score }
  let w4 := { w3 with accessibility := w3.accessibility.calculate_score }
  let w5 := { w4 with business := w4.business.calculate_score }
  let total : ℤ := pyInt ((w5.performance.get_numeric_score : ℚ) * (25 / 100)
    + (w5.seo.seo_score : ℚ) * (20 / 100)
    + (w5.security.security_headers_score : ℚ) * (20 / 100)
    + (w5.accessibility.accessibility_score : ℚ) * (15 / 100)
    + (w5.business.business_legitimacy_score : ℚ) * (20 / 100))
  let w6 := { w5 with overall_score := total }
  w6._calculate_buyer_priority

/-!
CMS detector version logic, translated from src/src/scrapers/analyzers/cms_detector.py.
String splitting and integer parsing are implemented over character lists so
that they compute; the parser accepts exactly nonempty digit strings, which
matches Python int() on the digit-and-dot version strings the detector
extracts.
-/

/-- The hardcoded current-version table (cms_detector.py lines 13-17). -/
def CURRENT_VERSIONS : List (String × String) :=
  [("wordpress", "6.4"), ("joomla", "5.0"), ("drupal", "10.0")]

/-- Dictionary lookup of the current version for a CMS name. -/
def currentVersionOf (cms : String) : Option String :=
  (CURRENT_VERSIONS.find? (fun p => p.1 == cms)).map Prod.snd

/-- One decimal digit of a character, if it is a digit. -/
def chDigit (c : Char) : Option ℕ :=
  if '0' ≤ c ∧ c ≤ '9' then some (c.toNat - '0'.toNat) else none

/-- Accumulator loop for parsing a digit string. -/
def parseNatAux : List Char → ℕ → Option ℕ
  | [], acc => some acc
  | c :: rest, acc =>
    match chDigit c with
    | some d => parseNatAux rest (acc * 10 + d)
    | none => none

/-- Python int() on one version component: fails on the empty string and on
any non-digit character. -/
def parseNatChars (cs : List Char) : Option ℕ :=
  if cs.isEmpty then none else parseNatAux cs 0

/-- Splitting a character list on dots, modelling str.split with a dot. -/
def splitDotsAux : List Char → List Char → List (List Char)
  | [], acc => [acc.reverse]
  | c :: rest, acc =>
    if c = '.' then acc.reverse :: splitDotsAux rest []
    else splitDotsAux rest (c :: acc)

/-- Parse every component, failing if any fails. -/
def parseAllNat : List (List Char) → Option (List ℕ)
  | [] => some []
  | c :: rest =>
    match parseNatChars c, parseAllNat rest with
    | some v, some vs => some (v :: vs)
    | _, _ => none

/-- tuple(map(int, s.split beside a dot)): all components parsed. -/
def parseDotted (s : String) : Option (List ℕ) :=
  parseAllNat (splitDotsAux s.data [])

/-- tuple(map(int, version.split(dot)[:2])): at most the first two components. -/
def parseDottedTake2 (s : String) : Option (List ℕ) :=
  parseAllNat ((splitDotsAux s.data []).take 2)

/-- CMSDetector.is_outdated (cms_detector.py lines 174-201). A parse failure
(ValueError) or an empty tuple (IndexError) is caught and yields False. -/
def is_outdated (cms : String) (version : Option String) : Bool :=
  match version with
  | none => false
  | some v =>
    if v = "" then false
    else
      match currentVersionOf cms with
      | none => false
      | some curStr =>
        match parseDotted curStr, parseDottedTake2 v with
        | some current, some detected =>
          match detected, current with
          | d0 :: _, c0 :: crest =>
            if (d0 : ℤ) < (c0 : ℤ) - 1 then true
            else if (d0 : ℤ) = (c0 : ℤ) - 1 ∧ 1 < (c0 :: crest).length ∧ 5 < crest.headD 0 then
              true
            else false
          | _, _ => false
        | _, _ => false

/-!
Fetch model, translated from src/src/scrapers/base_scraper.py. The network
is a function from URL to outcome; a GET either returns a response (status,
final post-redirect URL, body text, content byte length, header names,
elapsed seconds) or raises one of the httpx exceptions the source handles.
-/

/-- Outcome of one HTTP GET or HEAD request. -/
inductive FetchO where
  | ok (status : ℕ) (finalUrl : String) (body : String) (contentLen : ℕ)
      (headers : List String) (elapsed : ℚ)
  | timeout
  | connectError
  | tooManyRedirects
  | httpStatusError (code : ℕ)
  | otherMsg (msg : String)

/-- The status of a response, when the request did not raise. -/
def FetchO.statusOf : FetchO → Option ℕ
  | .ok status _ _ _ _ _ => some status
  | _ => none

/-- The classified error string the except clauses record for an exception
outcome (base_scraper.py lines 182-192); none for a response. -/
def classifyExc : FetchO → Option String
  | .ok _ _ _ _ _ _ => none
  | .timeout => some "timeout"
  | .connectError => some "connection_failed"
  | .tooManyRedirects => some "too_many_redirects"
  | .httpStatusError code => some ("http_error_" ++ toString code)
  | .otherMsg msg => some (msg.take 100)

/-- Record updates performed by the except clauses: the error tag is stored,
and an HTTPStatusError additionally stores its status code. -/
def applyExc (e : FetchO) (w : WebsiteIntelligence) : WebsiteIntelligence :=
  match e with
  | .ok _ _ _ _ _ _ => w
  | .timeout => { w with error := some "timeout" }
  | .connectError => { w with error := some "connection_failed" }
  | .tooManyRedirects => { w with error := some "too_many_redirects" }
  | .httpStatusError code =>
      { w with error := some ("http_error_" ++ toString code), status_code := code }
  | .otherMsg msg => { w with error := some (msg.take 100) }

/-- Mutable state of _fetch_with_measurements: the record plus the local
variables load_times, html_content, response_headers, working_url. -/
structure FetchState where
  intel : WebsiteIntelligence
  load_times : List ℚ := []
  html_content : Option String := none
  response_headers : Option (List String) := none
  working_url : Option String := none

/-- The url loop of _fetch_with_measurements (base_scraper.py lines 138-192):
try each URL; on a 200 response record everything, append the first timing
sample plus the samples of the non-raising repeat measurements, and stop; on a
non-200 response record status and final URL and continue; on an exception
record the classified error and continue. -/
def fetchStep (first : String → FetchO) (repeats : List FetchO) :
    List String → FetchState → FetchState
  | [], st => st
  | url :: rest, st =>
    match first url with
    | .ok status finalUrl body contentLen headers elapsed =>
      if status = 200 then
        let extra := repeats.filterMap (fun o =>
          match o with
          | .ok _ _ _ _ _ t => some t
          | _ => none)
        { st with
          intel := { st.intel with
            status_code := status
            final_url := some finalUrl
            security := { st.intel.security with has_ssl := finalUrl.startsWith "https" }
            performance := { st.intel.performance with html_size_bytes := contentLen } }
          html_content := some body
          response_headers := some headers
          working_url := some finalUrl
          load_times := st.load_times ++ elapsed :: extra }
      else
        fetchStep first repeats rest
          { st with intel := { st.intel with status_code := status, final_url := some finalUrl } }
    | e => fetchStep first repeats rest { st with intel := applyExc e st.intel }

/-- RobustWebsiteScraper._fetch_with_measurements (base_scraper.py lines
119-201): loop over https then http for the domain, then, if any samples were
collected, store them rounded to 3 decimals and run the load-time statistics. -/
def fetch_with_measurements (sqrtQ : ℚ → ℚ) (first : String → FetchO)
    (repeats : List FetchO) (domain : String) (intel : WebsiteIntelligence) : FetchState :=
  let st := fetchStep first repeats ["https://" ++ domain, "http://" ++ domain]
    { intel := intel }
  if st.load_times.isEmpty then st
  else
    { st with intel := { st.intel with performance := { st.intel.performance with
        load_time_metrics := LoadTimeMetrics.calculate sqrtQ
          { st.intel.performance.load_time_metrics with
            samples := st.load_times.map (roundTo 3) } } } }

/-- RobustWebsiteScraper._parse_security_headers (base_scraper.py lines
203-218): case-insensitive presence checks over the header names. -/
def _parse_security_headers (headers : List String) (w : WebsiteIntelligence) :
    WebsiteIntelligence :=
  let names := headers.map (fun h => h.toLower)
  { w with security := { w.security with
      has_hsts := names.contains "strict-transport-security"
      has_csp := names.contains "content-security-policy"
      has_x_frame_options := names.contains "x-frame-options"
      has_x_content_type_options := names.contains "x-content-type-options"
      has_x_xss_protection := names.contains "x-xss-protection" } }

/-- The fresh record analyze_website starts from (base_scraper.py lines 91-94). -/
def freshIntel (domain ts : String) : WebsiteIntelligence :=
  { domain := domain, analysis_timestamp := ts }

/-- RobustWebsiteScraper.analyze_website (base_scraper.py lines 76-117):
fetch with measurements, then run the HTML analyzer only if a body was
captured, the header parser only if headers were captured, the page checker
only if a working URL was found, and finally the score aggregation. The HTML
analyzer and page checker are separate components passed as functions. -/
def analyze_website (htmlAnalyze : String → WebsiteIntelligence → WebsiteIntelligence)
    (checkPages : WebsiteIntelligence → WebsiteIntelligence)
    (sqrtQ : ℚ → ℚ) (first : String → FetchO) (repeats : List FetchO)
    (domain ts : String) : WebsiteIntelligence :=
  let st := fetch_with_measurements sqrtQ first repeats domain (freshIntel domain ts)
  let intel1 :=
    match st.html_content with
    | some body => htmlAnalyze body st.intel
    | none => st.intel
  let intel2 :=
    match st.response_headers with
    | some hs => _parse_security_headers hs intel1
    | none => intel1
  let intel3 :=
    match st.working_url with
    | some _ => checkPages intel2
    | none => intel2
  intel3.calculate_overall_scores

/-!
Page existence checker, translated from
src/src/scrapers/analyzers/page_checker.py.
-/

/-- PageChecker._check_page_exists (page_checker.py lines 219-264): HEAD
first; on 405 retry with GET; the effective response must have status exactly
200; every exception outcome yields False. The two arguments are the outcomes
the network would give the HEAD and the GET request. -/
def check_page_exists (head get : FetchO) : Bool :=
  match head with
  | .ok status _ _ _ _ _ =>
    if status = 405 then
      match get with
      | .ok status2 _ _ _ _ _ => status2 = 200
      | _ => false
    else status = 200
  | _ => false

/-!
Form label accessibility check, translated from
src/src/scrapers/analyzers/html_analyzer.py lines 225-264. A form control is
modelled by its attributes; the two document-level lookups (a label element
whose for-attribute is the control id, and an enclosing label ancestor) are
modelled as boolean facts about the control.
-/

/-- One input, select or textarea element inside a form. -/
structure FormControl where
  type_attr : Option String := none
  aria_label : Option String := none
  aria_labelledby : Option String := none
  placeholder : Option String := none
  title : Option String := none
  id : Option String := none
  label_for_id : Bool := false
  inside_label : Bool := false

/-- Python truthiness of an optional string attribute: absent and empty are
both falsy. -/
def pyTruthy (o : Option String) : Bool := !(o.getD "" == "")

/-- The inp.get of a type with default text, lowercased, tested against the
skip list (html_analyzer.py lines 239-243). -/
def controlNeedsLabel (inp : FormControl) : Bool :=
  let t := (inp.type_attr.getD "text").toLower
  !(["hidden", "submit", "button", "reset", "image"].contains t)

/-- The has_label disjunction (html_analyzer.py lines 246-259). -/
def controlHasLabel (inp : FormControl) : Bool :=
  pyTruthy inp.aria_label || pyTruthy inp.aria_labelledby || pyTruthy inp.placeholder
    || pyTruthy inp.title || (pyTruthy inp.id && inp.label_for_id) || inp.inside_label

/-- HTMLAnalyzer._check_form_labels (html_analyzer.py lines 225-264): True
when the document has no forms; otherwise true exactly when no visible
control lacks every labelling method. -/
def check_form_labels (forms : List (List FormControl)) : Bool :=
  if forms.isEmpty then true
  else
    (forms.map (fun inputs =>
      (inputs.filter (fun i => controlNeedsLabel i && !(controlHasLabel i))).length)).sum = 0

/-!
Spec-side definitions, written from the wording of the specification so that
the theorems compare them with the translated code.
-/

/-- The performance grade map of the specification:
A 100, B 85, C 70, D 55, F 40, unknown 50. -/
def grade_numeric_map (g : String) : ℤ :=
  if g = "A" then 100
  else if g = "B" then 85
  else if g = "C" then 70
  else if g = "D" then 55
  else if g = "F" then 40
  else 50

/-- The issues score rubric as the specification states it: +20 for trimmed
mean above 3 seconds, else +10 above 2; +25 for missing SSL; +15 for a
security headers score below 50; +20 for an SEO score below 50; +25 for an
outdated CMS. -/
def issues_rubric (w : WebsiteIntelligence) : ℤ :=
  (if w.performance.load_time_metrics.trimmed_mean > 3 then 20
   else if w.performance.load_time_metrics.trimmed_mean > 2 then 10 else 0)
  + (if w.security.has_ssl = false then 25 else 0)
  + (if w.security.security_headers_score < 50 then 15 else 0)
  + (if w.seo.seo_score < 50 then 20 else 0)
  + (if w.is_outdated_cms then 25 else 0)

/-- The confidence formula of the specification:
round(min(1, n / 5) * max(0, 1 - cv), 2). -/
def confFormula (n : ℕ) (cv : ℚ) : ℚ :=
  roundTo 2 (min 1 ((n : ℚ) / 5) * max 0 (1 - cv))

/-- The outdatedness rule as the specification states it: detected major
strictly below current major minus one, or detected major equal to current
major minus one while the current minor version exceeds 5. -/
def outdated_rule (curMajor curMinor dMajor : ℕ) : Bool :=
  if (dMajor : ℤ) < (curMajor : ℤ) - 1 then true
  else if (dMajor : ℤ) = (curMajor : ℤ) - 1 ∧ 5 < curMinor then true
  else false

/-- The total-failure claim of the specification, with zero or near zero read
as at most 10: connection_failed error, security score zero, and the four
remaining group scores at most 10. -/
def c3_claim (w : WebsiteIntelligence) : Prop :=
  w.error = some "connection_failed"
  ∧ w.security.security_headers_score = 0
  ∧ w.performance.get_numeric_score ≤ 10
  ∧ w.seo.seo_score ≤ 10
  ∧ w.accessibility.accessibility_score ≤ 10
  ∧ w.business.business_legitimacy_score ≤ 10

instance (w : WebsiteIntelligence) : Decidable (c3_claim w) := by
  unfold c3_claim
  infer_instance

/-- A concrete record: a legitimate business site (legitimacy rubric 70) on a
slow, outdated, SSL-less stack whose security headers still score 60. After
aggregation its issues score is 90 and its legitimacy score 70. -/
def bpRecord : WebsiteIntelligence :=
  { domain := "bp.example"
    is_outdated_cms := true
    performance := { load_time_metrics := { samples := [4, 4, 4], median := 4, trimmed_mean := 4 } }
    security := { has_hsts := true, has_csp := true, has_x_frame_options := true,
                  has_x_content_type_options := true }
    business := { has_contact_page := true, has_phone_number := true, has_email := true,
                  has_physical_address := true, has_about_page := true,
                  has_privacy_policy := true } }

/-- A concrete network: the https URL of fail-then-ok.test refuses the
connection, every other URL answers 200. -/
def netC4 : String → FetchO := fun u =>
  if u = "https://fail-then-ok.test" then FetchO.connectError
  else FetchO.ok 200 "http://fail-then-ok.test/" "<html></html>" 13 [] 1

/-!
Helper lemmas shared by the claim theorems.
-/

/-- An if-then-else contributing k or nothing is nonnegative when k is. -/
theorem ite_z_nonneg (c : Prop) [Decidable c] (k : ℤ) (hk : 0 ≤ k) :
    0 ≤ if c then k else 0 := by
  split
  · exact hk
  · exact le_refl 0

/-- An if-then-else contributing k or nothing is at most k when k is nonnegative. -/
theorem ite_z_le (c : Prop) [Decidable c] (k : ℤ) (hk : 0 ≤ k) :
    (if c then k else 0) ≤ k := by
  split
  · exact le_refl k
  · exact hk

/-- Truncation toward zero of a nonnegative rational is nonnegative. -/
theorem pyInt_nonneg {q : ℚ} (h : 0 ≤ q) : 0 ≤ pyInt q := by
  rw [pyInt, if_neg (not_lt.2 h)]
  exact Int.le_floor.2 (by exact_mod_cast h)

/-- Truncation toward zero of a nonnegative rational bounded by an integer is
bounded by that integer. -/
theorem pyInt_le {q : ℚ} {n : ℤ} (h0 : 0 ≤ q) (h : q ≤ (n : ℚ)) : pyInt q ≤ n := by
  rw [pyInt, if_neg (not_lt.2 h0)]
  have := Int.floor_le_floor h
  simpa using this

/-- Truncation toward zero at zero. -/
theorem pyInt_zero : pyInt 0 = 0 := by
  rw [pyInt, if_neg (by norm_num)]
  simp

/-- Round-half-to-even is at least the floor. -/
theorem rheQ_ge_floor (x : ℚ) : ⌊x⌋ ≤ rheQ x := by
  rw [rheQ]
  split
  · exact le_refl _
  · split
    · omega
    · split
      · exact le_refl _
      · omega

/-- Round-half-to-even is at most the floor plus one. -/
theorem rheQ_le_floor_add_one (x : ℚ) : rheQ x ≤ ⌊x⌋ + 1 := by
  rw [rheQ]
  split
  · omega
  · split
    · exact le_refl _
    · split
      · omega
      · exact le_refl _

/-- Round-half-to-even is monotone. -/
theorem rheQ_mono {x y : ℚ} (h : x ≤ y) : rheQ x ≤ rheQ y := by
  have hf : ⌊x⌋ ≤ ⌊y⌋ := Int.floor_mono h
  rcases eq_or_lt_of_le hf with heq | hlt
  · have hxy : x - (⌊x⌋ : ℚ) ≤ y - (⌊x⌋ : ℚ) := by linarith
    rw [rheQ, rheQ, ← heq]
    split_ifs <;> first | omega | linarith
  · calc rheQ x ≤ ⌊x⌋ + 1 := rheQ_le_floor_add_one x
      _ ≤ ⌊y⌋ := by omega
      _ ≤ rheQ y := rheQ_ge_floor y

/-- Rounding at k decimal digits is monotone. -/
theorem roundTo_mono (k : ℕ) {x y : ℚ} (h : x ≤ y) : roundTo k x ≤ roundTo k y := by
  rw [roundTo, roundTo]
  have hpow : (0 : ℚ) < 10 ^ k := by positivity
  have h1 : rheQ (x * 10 ^ k) ≤ rheQ (y * 10 ^ k) :=
    rheQ_mono (mul_le_mul_of_nonneg_right h (le_of_lt hpow))
  have h2 : ((rheQ (x * 10 ^ k) : ℚ)) ≤ ((rheQ (y * 10 ^ k) : ℚ)) := by exact_mod_cast h1
  exact div_le_div_of_nonneg_right h2 (le_of_lt hpow)

/-- The sort used by the statistics keeps the number of samples. -/
theorem length_insertAsc (x : ℚ) (l : List ℚ) :
    (insertAsc x l).length = l.length + 1 := by
  induction l with
  | nil => rfl
  | cons y ys ih =>
    rw [insertAsc]
    split
    · rfl
    · simp [List.length_cons, ih]

/-- Sorting keeps the number of samples. -/
theorem length_sortAsc (l : List ℚ) : (sortAsc l).length = l.length := by
  induction l with
  | nil => rfl
  | cons y ys ih =>
    rw [sortAsc] at ih ⊢
    simpa [List.foldr, length_insertAsc] using ih

/-- The recomputed SEO score lies between 0 and 100. -/
theorem seo_score_bounds (m : SEOMetrics) :
    0 ≤ (m.calculate_score).seo_score ∧ (m.calculate_score).seo_score ≤ 100 := by
  rw [SEOMetrics.calculate_score]
  constructor
  · exact le_max_left 0 _
  · exact max_le (by norm_num) (min_le_left 100 _)

/-- The recomputed security headers score lies between 0 and 100. -/
theorem security_score_bounds (m : SecurityMetrics) :
    0 ≤ (m.calculate_score).security_headers_score
      ∧ (m.calculate_score).security_headers_score ≤ 100 := by
  rw [SecurityMetrics.calculate_score]
  constructor
  · refine add_nonneg (add_nonneg (add_nonneg (add_nonneg (add_nonneg ?_ ?_) ?_) ?_) ?_) ?_ <;>
      exact ite_z_nonneg _ _ (by norm_num)
  · have h30 := ite_z_le m.has_ssl (30 : ℤ) (by norm_num)
    have h20a := ite_z_le m.has_hsts (20 : ℤ) (by norm_num)
    have h20b := ite_z_le m.has_csp (20 : ℤ) (by norm_num)
    have h10a := ite_z_le m.has_x_frame_options (10 : ℤ) (by norm_num)
    have h10b := ite_z_le m.has_x_content_type_options (10 : ℤ) (by norm_num)
    have h10c := ite_z_le m.has_x_xss_protection (10 : ℤ) (by norm_num)
    dsimp only at h30 h20a h20b h10a h10b h10c ⊢
    omega

/-- The recomputed accessibility score lies between 0 and 100. -/
theorem accessibility_score_bounds (m : AccessibilityMetrics) :
    0 ≤ (m.calculate_score).accessibility_score
      ∧ (m.calculate_score).accessibility_score ≤ 100 := by
  rw [AccessibilityMetrics.calculate_score]
  constructor
  · refine add_nonneg (add_nonneg (add_nonneg (add_nonneg ?_ ?_) ?_) ?_) ?_ <;>
      exact ite_z_nonneg _ _ (by norm_num)
  · have h1 := ite_z_le m.has_lang_attribute (20 : ℤ) (by norm_num)
    have h2 := ite_z_le m.has_skip_link (15 : ℤ) (by norm_num)
    have h3 := ite_z_le m.forms_have_labels (20 : ℤ) (by norm_num)
    have h4 := ite_z_le m.images_have_alt (25 : ℤ) (by norm_num)
    have h5 := ite_z_le m.has_aria_landmarks (20 : ℤ) (by norm_num)
    dsimp only at h1 h2 h3 h4 h5 ⊢
    omega

/-- The recomputed business legitimacy score lies between 0 and 100. -/
theorem business_score_bounds (m : BusinessSignals) :
    0 ≤ (m.calculate_score).business_legitimacy_score
      ∧ (m.calculate_score).business_legitimacy_score ≤ 100 := by
  rw [BusinessSignals.calculate_score]
  constructor
  · refine le_min (by norm_num) ?_
    refine add_nonneg (add_nonneg (add_nonneg (add_nonneg (add_nonneg (add_nonneg
      (add_nonneg (add_nonneg (add_nonneg (add_nonneg ?_ ?_) ?_) ?_) ?_) ?_) ?_) ?_) ?_) ?_) ?_ <;>
      exact ite_z_nonneg _ _ (by norm_num)
  · exact min_le_left 100 _

/-- The numeric performance score lies between 0 and 100 for every grade. -/
theorem numeric_score_bounds (m : PerformanceMetrics) :
    0 ≤ m.get_numeric_score ∧ m.get_numeric_score ≤ 100 := by
  rw [PerformanceMetrics.get_numeric_score]
  split_ifs <;> norm_num

/-- The numeric performance score equals the specification grade map applied
to the grade. -/
theorem numeric_score_eq_map (m : PerformanceMetrics) :
    m.get_numeric_score = grade_numeric_map m.performance_grade := by
  rw [PerformanceMetrics.get_numeric_score, grade_numeric_map]
  split_ifs <;> rfl

/-- The issues score of buyer priority is nonnegative. -/
theorem issues_rubric_nonneg (w : WebsiteIntelligence) : 0 ≤ issues_rubric w := by
  rw [issues_rubric]
  have h1 : (0 : ℤ) ≤ if w.performance.load_time_metrics.trimmed_mean > 3 then 20
      else if w.performance.load_time_metrics.trimmed_mean > 2 then 10 else 0 := by
    split_ifs <;> norm_num
  refine add_nonneg (add_nonneg (add_nonneg (add_nonneg h1 ?_) ?_) ?_) ?_ <;>
    exact ite_z_nonneg _ _ (by norm_num)

/-- The error field an exception outcome stores is its classification. -/
theorem applyExc_error {e : FetchO} {msg : String} (h : classifyExc e = some msg)
    (w : WebsiteIntelligence) : (applyExc e w).error = some msg := by
  cases e <;> simp_all [classifyExc, applyExc]

/-- Aggregation recomputes the SEO group score. -/
theorem calc_seo (w : WebsiteIntelligence) :
    (w.calculate_overall_scores).seo = w.seo.calculate_score := by
  simp [WebsiteIntelligence.calculate_overall_scores,
    WebsiteIntelligence._calculate_buyer_priority]

/-- Aggregation recomputes the security group score. -/
theorem calc_security (w : WebsiteIntelligence) :
    (w.calculate_overall_scores).security = w.security.calculate_score := by
  simp [WebsiteIntelligence.calculate_overall_scores,
    WebsiteIntelligence._calculate_buyer_priority]

/-- Aggregation recomputes the accessibility group score. -/
theorem calc_accessibility (w : WebsiteIntelligence) :
    (w.calculate_overall_scores).accessibility = w.accessibility.calculate_score := by
  simp [WebsiteIntelligence.calculate_overall_scores,
    WebsiteIntelligence._calculate_buyer_priority]

/-- Aggregation recomputes the business group score. -/
theorem calc_business (w : WebsiteIntelligence) :
    (w.calculate_overall_scores).business = w.business.calculate_score := by
  simp [WebsiteIntelligence.calculate_overall_scores,
    WebsiteIntelligence._calculate_buyer_priority]

/-- Aggregation recomputes the performance grade. -/
theorem calc_performance (w : WebsiteIntelligence) :
    (w.calculate_overall_scores).performance = w.performance.calculate_grade := by
  simp [WebsiteIntelligence.calculate_overall_scores,
    WebsiteIntelligence._calculate_buyer_priority]

/-- The stored overall score in terms of the recomputed group scores. -/
theorem calc_overall_score (w : WebsiteIntelligence) :
    (w.calculate_overall_scores).overall_score =
      pyInt (((w.performance.calculate_grade).get_numeric_score : ℚ) * (25 / 100)
        + ((w.seo.calculate_score).seo_score : ℚ) * (20 / 100)
        + ((w.security.calculate_score).security_headers_score : ℚ) * (20 / 100)
        + ((w.accessibility.calculate_score).accessibility_score : ℚ) * (15 / 100)
        + ((w.business.calculate_score).business_legitimacy_score : ℚ) * (20 / 100)) := by
  simp [WebsiteIntelligence.calculate_overall_scores,
    WebsiteIntelligence._calculate_buyer_priority]

/-- The stored buyer priority score in terms of the specification rubric and
the recomputed legitimacy score. -/
theorem calc_bps (w : WebsiteIntelligence) :
    (w.calculate_overall_scores).buyer_priority_score =
      pyInt ((issues_rubric (w.calculate_overall_scores) : ℚ)
        * (((w.business.calculate_score).business_legitimacy_score : ℚ) / 100)) := by
  simp [WebsiteIntelligence.calculate_overall_scores,
    WebsiteIntelligence._calculate_buyer_priority, issues_rubric]

/-- C1: for every WebsiteIntelligence record, after calculate_overall_scores
runs the overall score equals the weighted sum of the five recomputed group
scores with weights 0.25, 0.20, 0.20, 0.15, 0.20, truncated with int(), where
the performance numeric value is obtained from the stored grade by the map
A 100, B 85, C 70, D 55, F 40, unknown 50. -/
theorem overall_score_weighted_sum (w : WebsiteIntelligence) :
    (w.calculate_overall_scores).overall_score =
      pyInt ((grade_numeric_map (w.calculate_overall_scores).performance.performance_grade : ℚ)
          * (25 / 100)
        + ((w.calculate_overall_scores).seo.seo_score : ℚ) * (20 / 100)
        + ((w.calculate_overall_scores).security.security_headers_score : ℚ) * (20 / 100)
        + ((w.calculate_overall_scores).accessibility.accessibility_score : ℚ) * (15 / 100)
        + ((w.calculate_overall_scores).business.business_legitimacy_score : ℚ) * (20 / 100)) := by
  rw [calc_overall_score, calc_performance, calc_seo, calc_security, calc_accessibility,
    calc_business, numeric_score_eq_map]

/-- C6: after aggregation every group score lies in the range 0 to 100, the
overall score lies in 0 to 100, and the buyer priority score is nonnegative. -/
theorem score_bounds_invariant (w : WebsiteIntelligence) :
    (0 ≤ (w.calculate_overall_scores).seo.seo_score
      ∧ (w.calculate_overall_scores).seo.seo_score ≤ 100)
    ∧ (0 ≤ (w.calculate_overall_scores).security.security_headers_score
      ∧ (w.calculate_overall_scores).security.security_headers_score ≤ 100)
    ∧ (0 ≤ (w.calculate_overall_scores).accessibility.accessibility_score
      ∧ (w.calculate_overall_scores).accessibility.accessibility_score ≤ 100)
    ∧ (0 ≤ (w.calculate_overall_scores).business.business_legitimacy_score
      ∧ (w.calculate_overall_scores).business.business_legitimacy_score ≤ 100)
    ∧ (0 ≤ (w.calculate_overall_scores).performance.get_numeric_score
      ∧ (w.calculate_overall_scores).performance.get_numeric_score ≤ 100)
    ∧ (0 ≤ (w.calculate_overall_scores).overall_score
      ∧ (w.calculate_overall_scores).overall_score ≤ 100)
    ∧ 0 ≤ (w.calculate_overall_scores).buyer_priority_score := by
  rw [calc_seo, calc_security, calc_accessibility, calc_business, calc_performance,
    calc_overall_score, calc_bps]
  obtain ⟨hs0, hs1⟩ := seo_score_bounds w.seo
  obtain ⟨hc0, hc1⟩ := security_score_bounds w.security
  obtain ⟨ha0, ha1⟩ := accessibility_score_bounds w.accessibility
  obtain ⟨hb0, hb1⟩ := business_score_bounds w.business
  obtain ⟨hp0, hp1⟩ := numeric_score_bounds (w.performance.calculate_grade)
  refine ⟨⟨hs0, hs1⟩, ⟨hc0, hc1⟩, ⟨ha0, ha1⟩, ⟨hb0, hb1⟩, ⟨hp0, hp1⟩, ⟨?_, ?_⟩, ?_⟩
  · refine pyInt_nonneg ?_
    have p0 : (0 : ℚ) ≤ ((w.performance.calculate_grade).get_numeric_score : ℚ) := by
      exact_mod_cast hp0
    have s0 : (0 : ℚ) ≤ ((w.seo.calculate_score).seo_score : ℚ) := by exact_mod_cast hs0
    have c0 : (0 : ℚ) ≤ ((w.security.calculate_score).security_headers_score : ℚ) := by
      exact_mod_cast hc0
    have a0 : (0 : ℚ) ≤ ((w.accessibility.calculate_score).accessibility_score : ℚ) := by
      exact_mod_cast ha0
    have b0 : (0 : ℚ) ≤ ((w.business.calculate_score).business_legitimacy_score : ℚ) := by
      exact_mod_cast hb0
    have w1 : (0 : ℚ) ≤ (25 : ℚ) / 100 := by norm_num
    have w2 : (0 : ℚ) ≤ (20 : ℚ) / 100 := by norm_num
    have w3 : (0 : ℚ) ≤ (15 : ℚ) / 100 := by norm_num
    nlinarith [mul_nonneg p0 w1, mul_nonneg s0 w2, mul_nonneg c0 w2,
      mul_nonneg a0 w3, mul_nonneg b0 w2]
  · refine pyInt_le ?_ ?_
    · have p0 : (0 : ℚ) ≤ ((w.performance.calculate_grade).get_numeric_score : ℚ) := by
        exact_mod_cast hp0
      have s0 : (0 : ℚ) ≤ ((w.seo.calculate_score).seo_score : ℚ) := by exact_mod_cast hs0
      have c0 : (0 : ℚ) ≤ ((w.security.calculate_score).security_headers_score : ℚ) := by
        exact_mod_cast hc0
      have a0 : (0 : ℚ) ≤ ((w.accessibility.calculate_score).accessibility_score : ℚ) := by
        exact_mod_cast ha0
      have b0 : (0 : ℚ) ≤ ((w.business.calculate_score).business_legitimacy_score : ℚ) := by
        exact_mod_cast hb0
      nlinarith
    · have p1 : ((w.performance.calculate_grade).get_numeric_score : ℚ) ≤ 100 := by
        exact_mod_cast hp1
      have s1 : ((w.seo.calculate_score).seo_score : ℚ) ≤ 100 := by exact_mod_cast hs1
      have c1 : ((w.security.calculate_score).security_headers_score : ℚ) ≤ 100 := by
        exact_mod_cast hc1
      have a1 : ((w.accessibility.calculate_score).accessibility_score : ℚ) ≤ 100 := by
        exact_mod_cast ha1
      have b1 : ((w.business.calculate_score).business_legitimacy_score : ℚ) ≤ 100 := by
        exact_mod_cast hb1
      push_cast
      nlinarith
  · refine pyInt_nonneg (mul_nonneg ?_ ?_)
    · exact_mod_cast issues_rubric_nonneg (w.calculate_overall_scores)
    · have hb0q : (0 : ℚ) ≤ ((w.business.calculate_score).business_legitimacy_score : ℚ) := by
        exact_mod_cast hb0
      positivity

/-- C7: on fewer than two samples, calculate leaves an empty-sample record
unchanged, and on a single sample sets median and trimmed mean to that sample
while every dispersion statistic keeps its zero default; the function is
total, so it never fails, including on the empty list. -/
theorem load_time_degenerate (sqrtQ : ℚ → ℚ) (s : List ℚ) (h : s.length < 2) :
    (s = [] → LoadTimeMetrics.calculate sqrtQ { samples := s } = { samples := s })
    ∧ (∀ x : ℚ, s = [x] →
      (LoadTimeMetrics.calculate sqrtQ { samples := s }).median = x
      ∧ (LoadTimeMetrics.calculate sqrtQ { samples := s }).trimmed_mean = x
      ∧ (LoadTimeMetrics.calculate sqrtQ { samples := s }).percentile_90 = 0
      ∧ (LoadTimeMetrics.calculate sqrtQ { samples := s }).percentile_95 = 0
      ∧ (LoadTimeMetrics.calculate sqrtQ { samples := s }).std_dev = 0
      ∧ (LoadTimeMetrics.calculate sqrtQ { samples := s }).iqr = 0
      ∧ (LoadTimeMetrics.calculate sqrtQ { samples := s }).coefficient_of_variation = 0
      ∧ (LoadTimeMetrics.calculate sqrtQ { samples := s }).confidence_score = 0) := by
  constructor
  · intro he
    subst he
    rfl
  · intro x hx
    subst hx
    refine ⟨?_, ?_, ?_, ?_, ?_, ?_, ?_, ?_⟩ <;> simp [LoadTimeMetrics.calculate]

/-- Witness for C7: the single sample 2.5 yields median and trimmed mean 2.5
and zero dispersion statistics. -/
theorem load_time_degenerate_witness :
    (LoadTimeMetrics.calculate (fun q => q) { samples := [5 / 2] }).median = 5 / 2
    ∧ (LoadTimeMetrics.calculate (fun q => q) { samples := [5 / 2] }).trimmed_mean = 5 / 2
    ∧ (LoadTimeMetrics.calculate (fun q => q) { samples := [5 / 2] }).std_dev = 0
    ∧ (LoadTimeMetrics.calculate (fun q => q) { samples := [5 / 2] }).iqr = 0
    ∧ (LoadTimeMetrics.calculate (fun q => q) { samples := [5 / 2] }).coefficient_of_variation = 0 := by
  have h := (load_time_degenerate (fun q => q) [5 / 2] (by simp)).2 (5 / 2) rfl
  exact ⟨h.1, h.2.1, h.2.2.2.2.1, h.2.2.2.2.2.1, h.2.2.2.2.2.2.1⟩

/-- C8: for two or more samples, calculate stores as confidence score exactly
round(min(1, n / 5) * max(0, 1 - cv), 2) where cv is the stored coefficient
of variation; the formula is non-increasing in cv at fixed n, non-decreasing
in n up to five samples at cv zero, and constant beyond five samples. -/
theorem confidence_formula_monotone :
    (∀ (sqrtQ : ℚ → ℚ) (m : LoadTimeMetrics), 2 ≤ m.samples.length →
      (m.calculate sqrtQ).confidence_score
        = confFormula m.samples.length (m.calculate sqrtQ).coefficient_of_variation)
    ∧ (∀ (n : ℕ) (cv1 cv2 : ℚ), cv1 ≤ cv2 → confFormula n cv2 ≤ confFormula n cv1)
    ∧ (∀ n1 n2 : ℕ, n1 ≤ n2 → n2 ≤ 5 → confFormula n1 0 ≤ confFormula n2 0)
    ∧ (∀ n : ℕ, 5 ≤ n → confFormula n 0 = confFormula 5 0) := by
  refine ⟨?_, ?_, ?_, ?_⟩
  · intro sqrtQ m h
    have h2 : ¬ (m.samples.length < 2) := by omega
    simp [LoadTimeMetrics.calculate, h2, confFormula, length_sortAsc]
  · intro n cv1 cv2 h
    have hmin : (0 : ℚ) ≤ min 1 ((n : ℚ) / 5) := le_min (by norm_num) (by positivity)
    refine roundTo_mono 2 ?_
    exact mul_le_mul_of_nonneg_left (max_le_max (le_refl 0) (by linarith)) hmin
  · intro n1 n2 h _
    refine roundTo_mono 2 ?_
    have hd : ((n1 : ℚ)) / 5 ≤ ((n2 : ℚ)) / 5 := by
      have : ((n1 : ℚ)) ≤ ((n2 : ℚ)) := by exact_mod_cast h
      linarith
    have hmax : (0 : ℚ) ≤ max 0 (1 - 0) := le_max_left 0 _
    exact mul_le_mul_of_nonneg_right (min_le_min (le_refl 1) hd) hmax
  · intro n h
    rw [confFormula, confFormula]
    have h1 : min (1 : ℚ) ((n : ℚ) / 5) = 1 := by
      refine min_eq_left ?_
      rw [le_div_iff₀ (by norm_num)]
      have : (5 : ℚ) ≤ (n : ℚ) := by exact_mod_cast h
      linarith
    have h2 : min (1 : ℚ) (((5 : ℕ) : ℚ) / 5) = 1 := by norm_num
    rw [h1, h2]

/-- Witness for C8: on samples 1 and 2 the stored confidence score equals the
formula applied to the sample count and the stored coefficient of variation. -/
theorem confidence_formula_monotone_witness :
    (LoadTimeMetrics.calculate (fun q => q) { samples := [1, 2] }).confidence_score
      = confFormula 2
        ((LoadTimeMetrics.calculate (fun q => q) { samples := [1, 2] }).coefficient_of_variation) := by
  have h := confidence_formula_monotone.1 (fun q => q) { samples := [1, 2] } (by simp)
  simpa using h

/-- C5: whenever the CMS has a table entry whose current version parses with
a major and a minor component and the detected version parses, is_outdated
follows exactly the boundary rule of the specification: outdated when the
detected major is below current major minus one, or equal to current major
minus one with current minor above 5; a missing version, an unparseable
version or an unknown CMS always yields false; concretely, wordpress 4.0 is
outdated and wordpress 5.9 is not. -/
theorem cms_outdated_boundary :
    (∀ (cms curStr v : String) (c0 c1 d0 : ℕ) (ct dt : List ℕ),
      currentVersionOf cms = some curStr →
      parseDotted curStr = some (c0 :: c1 :: ct) →
      parseDottedTake2 v = some (d0 :: dt) →
      is_outdated cms (some v) = outdated_rule c0 c1 d0)
    ∧ (∀ cms : String, is_outdated cms none = false)
    ∧ (∀ cms v : String, currentVersionOf cms = none → is_outdated cms (some v) = false)
    ∧ (∀ cms v : String, parseDottedTake2 v = none → is_outdated cms (some v) = false)
    ∧ is_outdated "wordpress" (some "4.0") = true
    ∧ is_outdated "wordpress" (some "5.9") = false := by
  refine ⟨?_, ?_, ?_, ?_, by decide, by decide⟩
  · intro cms curStr v c0 c1 d0 ct dt h1 h2 h3
    by_cases hv : v = ""
    · subst hv
      rw [show parseDottedTake2 "" = none from rfl] at h3
      exact absurd h3 (by simp)
    · simp only [is_outdated, h1, h2, h3, if_neg hv]
      have hiff : ((d0 : ℤ) = (c0 : ℤ) - 1 ∧ 1 < (c0 :: c1 :: ct).length
          ∧ 5 < (c1 :: ct).headD 0) ↔ ((d0 : ℤ) = (c0 : ℤ) - 1 ∧ 5 < c1) := by
        simp [List.headD_cons]
      simp only [hiff, outdated_rule]
  · intro cms
    rfl
  · intro cms v h
    by_cases hv : v = ""
    · simp [is_outdated, hv]
    · simp [is_outdated, h, hv]
  · intro cms v h
    by_cases hv : v = ""
    · simp [is_outdated, hv]
    · cases hcv : currentVersionOf cms with
      | none => simp [is_outdated, hv, hcv]
      | some cur =>
        cases hpd : parseDotted cur with
        | none => simp [is_outdated, hv, hcv, hpd, h]
        | some cs => simp [is_outdated, hv, hcv, hpd, h]

/-- Witness for C5: wordpress with current version 6.4 and detected 5.9
follows the boundary rule, which yields not outdated. -/
theorem cms_outdated_boundary_witness :
    is_outdated "wordpress" (some "5.9") = outdated_rule 6 4 5 :=
  cms_outdated_boundary.1 "wordpress" "6.4" "5.9" 6 4 5 [] [9] rfl rfl rfl

/-- C9: the page existence check reports true exactly when the effective
response, HEAD or the GET issued after a 405, has status exactly 200; every
exception outcome yields false. -/
theorem page_exists_iff_200 :
    (∀ head get : FetchO,
      check_page_exists head get = true ↔
        (head.statusOf = some 200 ∨ (head.statusOf = some 405 ∧ get.statusOf = some 200)))
    ∧ (∀ head get : FetchO, head.statusOf = none → check_page_exists head get = false) := by
  constructor
  · intro head get
    cases head with
    | ok status f b c hs t =>
      by_cases h405 : status = 405
      · subst h405
        cases get <;> simp [check_page_exists, FetchO.statusOf]
      · simp [check_page_exists, FetchO.statusOf, h405]
    | timeout => simp [check_page_exists, FetchO.statusOf]
    | connectError => simp [check_page_exists, FetchO.statusOf]
    | tooManyRedirects => simp [check_page_exists, FetchO.statusOf]
    | httpStatusError code => simp [check_page_exists, FetchO.statusOf]
    | otherMsg msg => simp [check_page_exists, FetchO.statusOf]
  · intro head get h
    cases head <;> simp_all [check_page_exists, FetchO.statusOf]

/-- Witness for C9: a timed-out HEAD request reports the page as absent. -/
theorem page_exists_iff_200_witness :
    check_page_exists FetchO.timeout FetchO.timeout = false :=
  page_exists_iff_200.2 FetchO.timeout FetchO.timeout rfl

/-- C10: the form label check passes vacuously on a document with no forms,
the fresh record defaults forms_have_labels to true, and that flag is worth
exactly 20 points of accessibility score. -/
theorem form_labels_vacuous_pass :
    (∀ forms : List (List FormControl), forms = [] → check_form_labels forms = true)
    ∧ ({} : AccessibilityMetrics).forms_have_labels = true
    ∧ (∀ a : AccessibilityMetrics,
      (AccessibilityMetrics.calculate_score
        { a with forms_have_labels := true }).accessibility_score
        = (AccessibilityMetrics.calculate_score
            { a with forms_have_labels := false }).accessibility_score + 20) := by
  refine ⟨?_, rfl, ?_⟩
  · intro forms h
    subst h
    rfl
  · intro a
    simp [AccessibilityMetrics.calculate_score]
    omega

/-- Witness for C10: a document with no forms passes the form label check. -/
theorem form_labels_vacuous_pass_witness :
    check_form_labels [] = true :=
  form_labels_vacuous_pass.1 [] rfl

/-- Aggregation does not change the error field. -/
theorem calc_error (w : WebsiteIntelligence) :
    (w.calculate_overall_scores).error = w.error := by
  simp [WebsiteIntelligence.calculate_overall_scores,
    WebsiteIntelligence._calculate_buyer_priority]

/-- Aggregation does not change the status code. -/
theorem calc_status (w : WebsiteIntelligence) :
    (w.calculate_overall_scores).status_code = w.status_code := by
  simp [WebsiteIntelligence.calculate_overall_scores,
    WebsiteIntelligence._calculate_buyer_priority]

/-- C2 counterexample: at the reachable combination issues 90 and legitimacy
70, the binary64 evaluation of int(issues * (legit / 100)) used by the code
returns 62, one less than the floor 63 the claim asserts. The record bpRecord
shows the combination is reachable. -/
theorem buyer_priority_floor_counterexample :
    issues_rubric (bpRecord.calculate_overall_scores) = 90
    ∧ (bpRecord.calculate_overall_scores).business.business_legitimacy_score = 70
    ∧ buyer_priority_fp 90 70 = 62
    ∧ ⌊((90 : ℚ) * 70) / 100⌋ = 63
    ∧ ¬ ((buyer_priority_fp 90 70 : ℤ) = ⌊((90 : ℚ) * 70) / 100⌋) := by
  have hfp : buyer_priority_fp 90 70 = 62 := by decide
  have hfl : ⌊((90 : ℚ) * 70) / 100⌋ = 63 := by
    rw [Int.floor_eq_iff]
    norm_num
  have hbus : (bpRecord.calculate_overall_scores).business.business_legitimacy_score = 70 := by
    rw [calc_business]
    norm_num [bpRecord, BusinessSignals.calculate_score]
  refine ⟨?_, hbus, hfp, hfl, ?_⟩
  · rw [issues_rubric, calc_performance, calc_security, calc_seo]
    norm_num [bpRecord, PerformanceMetrics.calculate_grade, SecurityMetrics.calculate_score,
      SEOMetrics.calculate_score, WebsiteIntelligence.calculate_overall_scores,
      WebsiteIntelligence._calculate_buyer_priority]
  · rw [hfp, hfl]
    norm_num

/-- C2 amended: the stored buyer priority score equals the truncation of
issues_score times legitimacy over 100 under the exact real arithmetic of the
model, it is never negative, and a zero legitimacy score forces it to zero;
under binary64 arithmetic a zero legitimacy also forces zero, but the product
can truncate one below the exact floor, as the counterexample shows. -/
theorem buyer_priority_amended (w : WebsiteIntelligence) :
    (w.calculate_overall_scores).buyer_priority_score
      = pyInt ((issues_rubric (w.calculate_overall_scores) : ℚ)
        * (((w.calculate_overall_scores).business.business_legitimacy_score : ℚ) / 100))
    ∧ 0 ≤ (w.calculate_overall_scores).buyer_priority_score
    ∧ ((w.calculate_overall_scores).business.business_legitimacy_score = 0 →
        (w.calculate_overall_scores).buyer_priority_score = 0)
    ∧ (∀ i : ℕ, buyer_priority_fp i 0 = 0) := by
  refine ⟨?_, ?_, ?_, fun i => rfl⟩
  · rw [calc_bps, calc_business]
  · rw [calc_bps]
    refine pyInt_nonneg (mul_nonneg ?_ ?_)
    · exact_mod_cast issues_rubric_nonneg (w.calculate_overall_scores)
    · have h := (business_score_bounds w.business).1
      have hq : (0 : ℚ) ≤ ((w.business.calculate_score).business_legitimacy_score : ℚ) := by
        exact_mod_cast h
      positivity
  · intro h
    rw [calc_business] at h
    rw [calc_bps, h]
    simpa using pyInt_zero

/-- Witness for C2: a fresh record has legitimacy 0, so its buyer priority
score is 0. -/
theorem buyer_priority_amended_witness :
    ((freshIntel "w.example" "").calculate_overall_scores).buyer_priority_score = 0 := by
  refine (buyer_priority_amended (freshIntel "w.example" "")).2.2.1 ?_
  rw [calc_business]
  norm_num [freshIntel, BusinessSignals.calculate_score]

/-- The fetch state produced when every request refuses the connection:
only the error tag is set, twice to the same value. -/
theorem fetch_all_refused (sqrtQ : ℚ → ℚ) (first : String → FetchO)
    (repeats : List FetchO) (d ts : String) (hnet : ∀ u, first u = FetchO.connectError) :
    fetch_with_measurements sqrtQ first repeats d (freshIntel d ts)
      = { intel := { freshIntel d ts with error := some "connection_failed" } } := by
  simp [fetch_with_measurements, fetchStep, hnet, applyExc]

/-- C3 amended: a domain refusing every connection yields a record with error
connection_failed, status 0, security, SEO and business scores 0 and buyer
priority 0, but the performance grade computes to A (numeric 100, because the
empty sample list leaves load time 0) and the accessibility score to 45
(forms_have_labels and images_have_alt default to true), so the overall score
is the well-defined integer 31 rather than a near-zero value. -/
theorem total_failure_scores_amended
    (htmlAnalyze : String → WebsiteIntelligence → WebsiteIntelligence)
    (checkPages : WebsiteIntelligence → WebsiteIntelligence)
    (sqrtQ : ℚ → ℚ) (first : String → FetchO) (repeats : List FetchO) (d ts : String)
    (hnet : ∀ u, first u = FetchO.connectError) :
    (analyze_website htmlAnalyze checkPages sqrtQ first repeats d ts).error
        = some "connection_failed"
    ∧ (analyze_website htmlAnalyze checkPages sqrtQ first repeats d ts).status_code = 0
    ∧ (analyze_website htmlAnalyze checkPages sqrtQ first repeats d ts).security.security_headers_score = 0
    ∧ (analyze_website htmlAnalyze checkPages sqrtQ first repeats d ts).seo.seo_score = 0
    ∧ (analyze_website htmlAnalyze checkPages sqrtQ first repeats d ts).business.business_legitimacy_score = 0
    ∧ (analyze_website htmlAnalyze checkPages sqrtQ first repeats d ts).performance.performance_grade = "A"
    ∧ (analyze_website htmlAnalyze checkPages sqrtQ first repeats d ts).performance.get_numeric_score = 100
    ∧ (analyze_website htmlAnalyze checkPages sqrtQ first repeats d ts).accessibility.accessibility_score = 45
    ∧ (analyze_website htmlAnalyze checkPages sqrtQ first repeats d ts).overall_score = 31
    ∧ (analyze_website htmlAnalyze checkPages sqrtQ first repeats d ts).buyer_priority_score = 0 := by
  have hfail : analyze_website htmlAnalyze checkPages sqrtQ first repeats d ts
      = ({ freshIntel d ts with error := some "connection_failed" } :
          WebsiteIntelligence).calculate_overall_scores := by
    rw [analyze_website, fetch_all_refused sqrtQ first repeats d ts hnet]
  rw [hfail]
  have hperf : (({ freshIntel d ts with error := some "connection_failed" } :
      WebsiteIntelligence).performance.calculate_grade).performance_grade = "A" := by
    norm_num [freshIntel, PerformanceMetrics.calculate_grade]
  refine ⟨?_, ?_, ?_, ?_, ?_, ?_, ?_, ?_, ?_, ?_⟩
  · rw [calc_error]
  · rw [calc_status]
    rfl
  · rw [calc_security]
    norm_num [freshIntel, SecurityMetrics.calculate_score]
  · rw [calc_seo]
    norm_num [freshIntel, SEOMetrics.calculate_score]
  · rw [calc_business]
    norm_num [freshIntel, BusinessSignals.calculate_score]
  · rw [calc_performance]
    exact hperf
  · rw [calc_performance, numeric_score_eq_map, hperf]
    rfl
  · rw [calc_accessibility]
    norm_num [freshIntel, AccessibilityMetrics.calculate_score]
  · rw [calc_overall_score]
    have h1 : ((({ freshIntel d ts with error := some "connection_failed" } :
        WebsiteIntelligence).performance.calculate_grade).get_numeric_score : ℚ) = 100 := by
      rw [numeric_score_eq_map, hperf]
      rfl
    have h2 : ((({ freshIntel d ts with error := some "connection_failed" } :
        WebsiteIntelligence).seo.calculate_score).seo_score : ℚ) = 0 := by
      norm_num [freshIntel, SEOMetrics.calculate_score]
    have h3 : ((({ freshIntel d ts with error := some "connection_failed" } :
        WebsiteIntelligence).security.calculate_score).security_headers_score : ℚ) = 0 := by
      norm_num [freshIntel, SecurityMetrics.calculate_score]
    have h4 : ((({ freshIntel d ts with error := some "connection_failed" } :
        WebsiteIntelligence).accessibility.calculate_score).accessibility_score : ℚ) = 45 := by
      norm_num [freshIntel, AccessibilityMetrics.calculate_score]
    have h5 : ((({ freshIntel d ts with error := some "connection_failed" } :
        WebsiteIntelligence).business.calculate_score).business_legitimacy_score : ℚ) = 0 := by
      norm_num [freshIntel, BusinessSignals.calculate_score]
    rw [h1, h2, h3, h4, h5]
    have harg : (100 : ℚ) * (25 / 100) + 0 * (20 / 100) + 0 * (20 / 100)
        + (45 : ℚ) * (15 / 100) + 0 * (20 / 100) = 127 / 4 := by norm_num
    rw [harg, pyInt, if_neg (by norm_num), Int.floor_eq_iff]
    norm_num
  · rw [calc_bps]
    have h5 : ((({ freshIntel d ts with error := some "connection_failed" } :
        WebsiteIntelligence).business.calculate_score).business_legitimacy_score : ℚ) = 0 := by
      norm_num [freshIntel, BusinessSignals.calculate_score]
    rw [h5]
    simpa using pyInt_zero

/-- Witness for C3: the concrete unreachable domain yields overall score 31. -/
theorem total_failure_scores_amended_witness :
    (analyze_website (fun _ w => w) (fun w => w) (fun q => q) (fun _ => FetchO.connectError) []
      "unreachable.example" "").overall_score = 31 :=
  (total_failure_scores_amended (fun _ w => w) (fun w => w) (fun q => q)
    (fun _ => FetchO.connectError) [] "unreachable.example" ""
    (fun _ => rfl)).2.2.2.2.2.2.2.2.1

/-- C3 counterexample: the total-failure record of the claim does not have
all five group scores near zero; its performance numeric score is 100. -/
theorem total_failure_scores_counterexample :
    ¬ c3_claim (analyze_website (fun _ w => w) (fun w => w) (fun q => q)
      (fun _ => FetchO.connectError) [] "unreachable.example" "") := by
  intro h
  have hfail : analyze_website (fun _ w => w) (fun w => w) (fun q => q)
      (fun _ => FetchO.connectError) [] "unreachable.example" ""
      = ({ freshIntel "unreachable.example" "" with error := some "connection_failed" } :
          WebsiteIntelligence).calculate_overall_scores := by
    rw [analyze_website, fetch_all_refused (fun q => q) (fun _ => FetchO.connectError) []
      "unreachable.example" "" (fun _ => rfl)]
  have hperf : (analyze_website (fun _ w => w) (fun w => w) (fun q => q)
      (fun _ => FetchO.connectError) [] "unreachable.example" "").performance.get_numeric_score
      = 100 := by
    rw [hfail, calc_performance, numeric_score_eq_map]
    have hg : (({ freshIntel "unreachable.example" "" with error := some "connection_failed" } :
        WebsiteIntelligence).performance.calculate_grade).performance_grade = "A" := by
      norm_num [freshIntel, PerformanceMetrics.calculate_grade]
    rw [hg]
    rfl
  have h3 := h.2.2.1
  rw [hperf] at h3
  norm_num at h3

/-- C4 amended: the fetch tries https then http and stops at the first 200;
the error tag holds the classification of the last exception raised among the
attempted URLs, so it stays set when the https attempt raises and the http
attempt then succeeds, and it stays unset when both schemes merely answer
non-200 statuses; on total failure the content, header and timing fields are
left empty. -/
theorem fetch_error_recording_amended :
    (∀ (sqrtQ : ℚ → ℚ) (first : String → FetchO) (repeats : List FetchO)
        (d ts f b : String) (c : ℕ) (hs : List String) (t : ℚ),
      first ("https://" ++ d) = FetchO.ok 200 f b c hs t →
      (fetch_with_measurements sqrtQ first repeats d (freshIntel d ts)).intel.error = none
      ∧ (fetch_with_measurements sqrtQ first repeats d (freshIntel d ts)).intel.status_code = 200
      ∧ (fetch_with_measurements sqrtQ first repeats d (freshIntel d ts)).working_url = some f)
    ∧ (∀ (sqrtQ : ℚ → ℚ) (first : String → FetchO) (repeats : List FetchO)
        (d ts : String) (e : FetchO) (m f b : String) (c : ℕ) (hs : List String) (t : ℚ),
      classifyExc e = some m →
      first ("https://" ++ d) = e →
      first ("http://" ++ d) = FetchO.ok 200 f b c hs t →
      (fetch_with_measurements sqrtQ first repeats d (freshIntel d ts)).intel.error = some m
      ∧ (fetch_with_measurements sqrtQ first repeats d (freshIntel d ts)).intel.status_code = 200
      ∧ (fetch_with_measurements sqrtQ first repeats d (freshIntel d ts)).working_url = some f)
    ∧ (∀ (sqrtQ : ℚ → ℚ) (first : String → FetchO) (repeats : List FetchO)
        (d ts : String) (s1 s2 : ℕ) (f1 b1 f2 b2 : String) (c1 c2 : ℕ)
        (hs1 hs2 : List String) (t1 t2 : ℚ),
      s1 ≠ 200 → s2 ≠ 200 →
      first ("https://" ++ d) = FetchO.ok s1 f1 b1 c1 hs1 t1 →
      first ("http://" ++ d) = FetchO.ok s2 f2 b2 c2 hs2 t2 →
      (fetch_with_measurements sqrtQ first repeats d (freshIntel d ts)).intel.error = none
      ∧ (fetch_with_measurements sqrtQ first repeats d (freshIntel d ts)).html_content = none
      ∧ (fetch_with_measurements sqrtQ first repeats d (freshIntel d ts)).response_headers = none
      ∧ (fetch_with_measurements sqrtQ first repeats d (freshIntel d ts)).load_times = []
      ∧ (fetch_with_measurements sqrtQ first repeats d (freshIntel d ts)).working_url = none
      ∧ (fetch_with_measurements sqrtQ first repeats d
          (freshIntel d ts)).intel.performance.load_time_metrics.samples = [])
    ∧ (∀ (sqrtQ : ℚ → ℚ) (first : String → FetchO) (repeats : List FetchO)
        (d ts : String) (e1 e2 : FetchO) (m1 m2 : String),
      classifyExc e1 = some m1 → classifyExc e2 = some m2 →
      first ("https://" ++ d) = e1 →
      first ("http://" ++ d) = e2 →
      (fetch_with_measurements sqrtQ first repeats d (freshIntel d ts)).intel.error = some m2
      ∧ (fetch_with_measurements sqrtQ first repeats d (freshIntel d ts)).html_content = none
      ∧ (fetch_with_measurements sqrtQ first repeats d (freshIntel d ts)).response_headers = none
      ∧ (fetch_with_measurements sqrtQ first repeats d (freshIntel d ts)).load_times = []
      ∧ (fetch_with_measurements sqrtQ first repeats d (freshIntel d ts)).working_url = none) := by
  refine ⟨?_, ?_, ?_, ?_⟩
  · intro sqrtQ first repeats d ts f b c hs t h1
    refine ⟨?_, ?_, ?_⟩ <;>
      simp [fetch_with_measurements, fetchStep, h1, freshIntel]
  · intro sqrtQ first repeats d ts e m f b c hs t hcl h1 h2
    refine ⟨?_, ?_, ?_⟩ <;>
      cases e <;>
      simp_all [fetch_with_measurements, fetchStep, applyExc, classifyExc, freshIntel]
  · intro sqrtQ first repeats d ts s1 s2 f1 b1 f2 b2 c1 c2 hs1 hs2 t1 t2 hn1 hn2 h1 h2
    refine ⟨?_, ?_, ?_, ?_, ?_, ?_⟩ <;>
      simp [fetch_with_measurements, fetchStep, h1, h2, hn1, hn2, freshIntel]
  · intro sqrtQ first repeats d ts e1 e2 m1 m2 hcl1 hcl2 h1 h2
    refine ⟨?_, ?_, ?_, ?_, ?_⟩ <;>
      cases e1 <;> cases e2 <;>
      simp_all [fetch_with_measurements, fetchStep, applyExc, classifyExc, freshIntel]

/-- Witness for C4: on the concrete network whose https attempt refuses the
connection and whose http attempt answers 200, the record keeps the error tag
connection_failed beside the successful fetch. -/
theorem fetch_error_recording_amended_witness :
    (fetch_with_measurements (fun q => q) netC4 [] "fail-then-ok.test"
      (freshIntel "fail-then-ok.test" "")).intel.error = some "connection_failed"
    ∧ (fetch_with_measurements (fun q => q) netC4 [] "fail-then-ok.test"
      (freshIntel "fail-then-ok.test" "")).intel.status_code = 200 := by
  have h := fetch_error_recording_amended.2.1 (fun q => q) netC4 [] "fail-then-ok.test" ""
    FetchO.connectError "connection_failed" "http://fail-then-ok.test/" "<html></html>" 13 [] 1
    rfl rfl rfl
  exact ⟨h.1, h.2.1⟩

/-- C4 counterexample: on the same concrete network the http scheme yields
200 (the working URL is recorded and the status is 200), yet a classified
error tag is recorded, contradicting the claim that an error is recorded if
and only if neither scheme yields 200. -/
theorem fetch_error_recording_counterexample :
    (fetch_with_measurements (fun q => q) netC4 [] "fail-then-ok.test"
      (freshIntel "fail-then-ok.test" "")).working_url = some "http://fail-then-ok.test/"
    ∧ (fetch_with_measurements (fun q => q) netC4 [] "fail-then-ok.test"
      (freshIntel "fail-then-ok.test" "")).intel.status_code = 200
    ∧ ¬ ((fetch_with_measurements (fun q => q) netC4 [] "fail-then-ok.test"
      (freshIntel "fail-then-ok.test" "")).intel.error = none) := by
  have h1 : netC4 "https://fail-then-ok.test" = FetchO.connectError := rfl
  have h2 : netC4 "http://fail-then-ok.test"
      = FetchO.ok 200 "http://fail-then-ok.test/" "<html></html>" 13 [] 1 := rfl
  refine ⟨?_, ?_, ?_⟩ <;>
    simp [fetch_with_measurements, fetchStep, h1, h2, applyExc, freshIntel]

end WebIntel
